import Mathlib

/-!
Verification of the ens-mcp-server core: a shallow embedding of the provider
list resolver and JustaName client factory (src/clients/index.ts), the error
classifier `handleEnsError` and the eight operation handlers
(src/utils/index.ts). Upstream network clients are modelled as oracles that
either return a value or throw an error value; each handler additionally
reports the ordered list of upstream calls it performed, so that statements
about which calls happen (and with which arguments) can be proved.
-/

/-- Boolean test that `pat` is a prefix of the second list, over characters. -/
def charsHasPrefixOf : List Char → List Char → Bool
  | [], _ => true
  | _ :: _, [] => false
  | a :: as, b :: bs => a == b && charsHasPrefixOf as bs

/-- Boolean test that `pat` occurs as a contiguous substring, modelling the
JavaScript `String.prototype.includes` used by the source. -/
def containsSub (pat : List Char) : List Char → Bool
  | [] => pat.isEmpty
  | c :: rest => charsHasPrefixOf pat (c :: rest) || containsSub pat rest

/-- JavaScript `s.includes(pat)` on strings. -/
def jsIncludes (s pat : String) : Bool :=
  containsSub pat.data s.data

/-- Accumulator-style splitting at each comma, modelling JavaScript
`s.split(',')` (no limit, single-character separator). -/
def splitCommaAux : List Char → List Char → List String
  | [], acc => [String.mk acc.reverse]
  | c :: rest, acc =>
    if c = ',' then String.mk acc.reverse :: splitCommaAux rest []
    else splitCommaAux rest (c :: acc)

/-- JavaScript `s.split(',')`. -/
def jsSplitComma (s : String) : List String :=
  splitCommaAux s.data []

/-- Whitespace characters removed by JavaScript `trim`, restricted to the
ASCII whitespace forms. -/
def isJsSpace (c : Char) : Bool :=
  c = ' ' || c = '\t' || c = '\n' || c = '\r' || c = '\x0b' || c = '\x0c'

/-- JavaScript `s.trim()`: strip whitespace from both ends. -/
def jsTrim (s : String) : String :=
  String.mk (((s.data.dropWhile isJsSpace).reverse.dropWhile isJsSpace).reverse)

/-- A thrown JavaScript value as seen by the error classifier: either an
`Error` instance carrying a `message` together with its `String(error)`
rendering, or any other value carrying only its `String(error)` rendering. -/
inductive JsError where
  | error (message : String) (stringForm : String)
  | other (stringForm : String)
deriving DecidableEq

/-- The `String(error)` rendering of a thrown value. -/
def jsStringOf : JsError → String
  | JsError.error _ sf => sf
  | JsError.other sf => sf

/-- The error classifier `handleEnsError` of src/utils/index.ts: a
first-match-wins substring cascade on the message of an `Error` instance,
with a final template that falls back to the stringified error when the
message is empty (the JavaScript `errorMessage || String(error)`). -/
def handleEnsError (err : JsError) (operation : String) : String :=
  match err with
  | JsError.error errorMessage _ =>
    if jsIncludes errorMessage "fetch failed" || jsIncludes errorMessage "timeout" ||
        jsIncludes errorMessage "network" || jsIncludes errorMessage "HTTP request failed" then
      "Network error while accessing Ethereum providers. Please check your internet connection or try again later. Technical details: " ++ errorMessage
    else if jsIncludes errorMessage "ENS" then
      "ENS error: " ++ errorMessage
    else if jsIncludes errorMessage "invalid" || jsIncludes errorMessage "parameter" then
      "Invalid input: " ++ errorMessage
    else
      "Error during " ++ operation ++ ": " ++
        (if errorMessage = "" then jsStringOf err else errorMessage)
  | JsError.other _ =>
    "Error during " ++ operation ++ ": " ++ jsStringOf err

/-- The built-in default provider endpoints of src/clients/index.ts. -/
def DEFAULT_PROVIDERS : List String :=
  ["https://eth.drpc.org",
   "https://eth.llamarpc.com",
   "https://ethereum.publicnode.com",
   "https://rpc.ankr.com/eth"]

/-- JavaScript truthiness of the optional environment string: `undefined`
and the empty string are falsy. -/
def jsTruthy : Option String → Bool
  | none => false
  | some s => !(s == "")

/-- The string value of the optional environment variable, read in branches
where it is known to be truthy. -/
def strVal : Option String → String
  | none => ""
  | some s => s

/-- `getProviderUrls` of src/clients/index.ts, with `process.env.PROVIDER_URL`
passed explicitly as an optional string. -/
def getProviderUrls (envProvider : Option String) : List String :=
  if jsTruthy envProvider && jsIncludes (strVal envProvider) "," then
    (jsSplitComma (strVal envProvider)).map jsTrim
  else if jsTruthy envProvider then
    strVal envProvider :: DEFAULT_PROVIDERS.filter (fun url => url != strVal envProvider)
  else
    DEFAULT_PROVIDERS

/-- A JustaName client value, recording the configuration it was built from
(`JustaName.init({networks: [{chainId, providerUrl}]})`). -/
structure JNClient where
  chainId : Nat
  providerUrl : String
deriving DecidableEq

/-- `JustaName.init` with a single network entry. -/
def JustaNameInit (chainId : Nat) (providerUrl : String) : JNClient :=
  { chainId := chainId, providerUrl := providerUrl }

/-- The factory state of `createJustaNameClient`: the held `client`
reference. -/
structure JNFactory where
  client : JNClient
deriving DecidableEq

/-- The initial state of `createJustaNameClient`: a client bound to the
first provider URL. -/
def createJustaNameClient (providerUrls : List String) : JNFactory :=
  { client := JustaNameInit 1 (providerUrls.getD 0 "") }

/-- The `retry` closure of `createJustaNameClient`, as an explicit state
transition on the held client reference: the result pairs the new held
reference with either the thrown exhaustion error or the returned client. -/
def retryStep (providerUrls : List String) (held : JNClient) (currentIndex : Nat) :
    JNClient × Except String JNClient :=
  if currentIndex ≥ providerUrls.length - 1 then
    (held, Except.error "All providers failed")
  else
    let c := JustaNameInit 1 (providerUrls.getD (currentIndex + 1) "")
    (c, Except.ok c)

/-- Boolean test that `pat` is a suffix, modelling JavaScript `endsWith`. -/
def charsHasSuffixOf (pat s : List Char) : Bool :=
  charsHasPrefixOf pat.reverse s.reverse

/-- JavaScript `s.endsWith(pat)` on strings. -/
def jsEndsWith (s pat : String) : Bool :=
  charsHasSuffixOf pat.data s.data

/-- `normalizeName` of src/utils/index.ts. -/
def normalizeName (name : String) : String :=
  if jsEndsWith name ".eth" then name else name ++ ".eth"

/-- One text content entry of a server response (index-signature and meta
fields of the source interface, unused by the handlers, are omitted). -/
structure TextContent where
  type : String
  text : String
deriving DecidableEq

/-- The response envelope returned by every operation handler. -/
structure ServerResponse where
  content : List TextContent
  isError : Bool
deriving DecidableEq

/-- A success envelope with a single text entry. -/
def okEnvelope (text : String) : ServerResponse :=
  { content := [{ type := "text", text := text }], isError := false }

/-- An error envelope with a single text entry. -/
def errEnvelope (text : String) : ServerResponse :=
  { content := [{ type := "text", text := text }], isError := true }

/-- Result of `publicClient.getAddressRecord`. -/
structure AddressRecord where
  value : String
deriving DecidableEq

/-- Result of `publicClient.getName`; the source field `match` is a reserved
word in Lean and is embedded as `matched`. -/
structure NameLookupResult where
  name : String
  matched : Bool
deriving DecidableEq

/-- Result of `publicClient.getOwner`. -/
structure OwnerResult where
  owner : String
  registrant : Option String
  ownershipLevel : String
deriving DecidableEq

/-- One entry of `records.texts`. -/
structure TextRec where
  key : String
  value : String
deriving DecidableEq

/-- One entry of `records.coins`. -/
structure CoinRec where
  name : String
  id : Nat
  value : String
deriving DecidableEq

/-- The `records.contentHash` object. -/
structure ContentHash where
  decoded : String
  protocolType : String
deriving DecidableEq

/-- The `records` object of `justaname.subnames.getRecords`. -/
structure RecordsData where
  resolverAddress : String
  texts : List TextRec
  coins : List CoinRec
  contentHash : Option ContentHash
deriving DecidableEq

/-- The full response of `justaname.subnames.getRecords`. -/
structure RecordsResponse where
  records : RecordsData
deriving DecidableEq

/-- Result of `publicClient.getExpiry`; the locale rendering of the nested
`expiry.date` is embedded as the string it produces. -/
structure ExpiryInfo where
  dateLocale : String
  status : String
  gracePeriod : Nat
deriving DecidableEq

/-- One entry of `publicClient.getSubnames`. -/
structure Subname where
  name : String
  owner : Option String
deriving DecidableEq

/-- One domain event of `publicClient.getNameHistory`. -/
structure DomainEvent where
  type : String
  blockNumber : Nat
  owner : String
  resolver : String
deriving DecidableEq

/-- One registration event; the locale rendering of the expiry date is
embedded as the string it produces. -/
structure RegistrationEvent where
  type : String
  blockNumber : Nat
  registrant : String
  expiryDateLocale : String
deriving DecidableEq

/-- One resolver event. -/
structure ResolverEvent where
  type : String
  blockNumber : Nat
  addr : String
  key : String
  value : Option String
deriving DecidableEq

/-- Result of `publicClient.getNameHistory`. -/
structure NameHistory where
  domainEvents : List DomainEvent
  registrationEvents : List RegistrationEvent
  resolverEvents : List ResolverEvent
deriving DecidableEq

/-- Result of `publicClient.getPrice` (wei amounts). -/
structure Price where
  base : Nat
  premium : Nat
deriving DecidableEq

/-- One upstream client call, recording which method was invoked and with
which arguments. -/
inductive UpstreamCall where
  | getAddressRecord (name : String)
  | getName (address : String)
  | getTextRecord (name : String) (key : String)
  | getAvailable (name : String)
  | getOwner (name : String)
  | getRecords (ens : String)
  | getExpiry (name : String)
  | getSubnames (name : String)
  | getNameHistory (name : String)
  | getPrice (nameOrNames : String) (duration : Nat)
deriving DecidableEq

/-- The upstream clients (`publicClient` and `justaname`) as an oracle: each
method either returns its result or throws a `JsError`. -/
structure Oracle where
  getAddressRecord : String → Except JsError (Option AddressRecord)
  getName : String → Except JsError (Option NameLookupResult)
  getTextRecord : String → String → Except JsError (Option String)
  getAvailable : String → Except JsError Bool
  getOwner : String → Except JsError (Option OwnerResult)
  getRecords : String → Except JsError RecordsResponse
  getExpiry : String → Except JsError (Option ExpiryInfo)
  getSubnames : String → Except JsError (Option (List Subname))
  getNameHistory : String → Except JsError (Option NameHistory)
  getPrice : String → Nat → Except JsError Price

/-- Handler computations: given the call log so far, produce either a value
or a thrown error, together with the extended call log. -/
def CallM (α : Type) : Type :=
  List UpstreamCall → Except JsError α × List UpstreamCall

/-- Returning a value without calling upstream. -/
def CallM.pure {α : Type} (a : α) : CallM α :=
  fun log => (Except.ok a, log)

/-- Sequencing: a thrown error short-circuits, keeping the log. -/
def CallM.bind {α β : Type} (x : CallM α) (f : α → CallM β) : CallM β :=
  fun log =>
    match x log with
    | (Except.ok a, l) => f a l
    | (Except.error e, l) => (Except.error e, l)

/-- Performing one upstream call with the given outcome, appending it to the
log. -/
def invoke {α : Type} (c : UpstreamCall) (r : Except JsError α) : CallM α :=
  fun log => (r, log ++ [c])

/-- The try/catch wrapper shared by every handler: a thrown error is routed
through `handleEnsError` and wrapped in an error envelope. -/
def runHandler (operation : String) (body : CallM ServerResponse) :
    ServerResponse × List UpstreamCall :=
  match body [] with
  | (Except.ok resp, l) => (resp, l)
  | (Except.error e, l) => (errEnvelope (handleEnsError e operation), l)

/-- Body of `resolveName` of src/utils/index.ts. -/
def resolveNameM (o : Oracle) (name : String) : CallM ServerResponse :=
  let normalizedName := normalizeName name
  CallM.bind
    (invoke (UpstreamCall.getAddressRecord normalizedName) (o.getAddressRecord normalizedName))
    (fun result =>
      match result with
      | none => CallM.pure (okEnvelope ("Could not resolve " ++ normalizedName ++ " to an address."))
      | some r => CallM.pure (okEnvelope ("The address for " ++ normalizedName ++ " is " ++ r.value)))

/-- `resolveName` of src/utils/index.ts. -/
def resolveName (o : Oracle) (name : String) : ServerResponse × List UpstreamCall :=
  runHandler "name resolution" (resolveNameM o name)

/-- Body of `reverseLookup`; `ethers.isAddress` is an external library
predicate and is passed in as `isAddr`. -/
def reverseLookupM (isAddr : String → Bool) (o : Oracle) (address : String) : CallM ServerResponse :=
  if !(isAddr address) then
    CallM.pure (errEnvelope ("Invalid Ethereum address: " ++ address))
  else
    CallM.bind (invoke (UpstreamCall.getName address) (o.getName address))
      (fun result =>
        match result with
        | none => CallM.pure (okEnvelope ("No ENS name found for address " ++ address))
        | some r =>
          CallM.pure (okEnvelope ("The ENS name for " ++ address ++ " is " ++ r.name ++
            (if !r.matched then " (Note: forward resolution does not match this address)" else ""))))

/-- `reverseLookup` of src/utils/index.ts. -/
def reverseLookup (isAddr : String → Bool) (o : Oracle) (address : String) :
    ServerResponse × List UpstreamCall :=
  runHandler "reverse lookup" (reverseLookupM isAddr o address)

/-- Body of `getTextRecord`; the JavaScript falsiness test `!value` is true
both for a missing record and for an empty-string record. -/
def getTextRecordM (o : Oracle) (name key : String) : CallM ServerResponse :=
  let normalizedName := normalizeName name
  CallM.bind
    (invoke (UpstreamCall.getTextRecord normalizedName key) (o.getTextRecord normalizedName key))
    (fun value =>
      match value with
      | none => CallM.pure (okEnvelope ("No \x27" ++ key ++ "\x27 record found for " ++ normalizedName))
      | some v =>
        if v = "" then
          CallM.pure (okEnvelope ("No \x27" ++ key ++ "\x27 record found for " ++ normalizedName))
        else
          CallM.pure (okEnvelope ("The \x27" ++ key ++ "\x27 record for " ++ normalizedName ++ " is: " ++ v)))

/-- `getTextRecord` of src/utils/index.ts. -/
def getTextRecord (o : Oracle) (name key : String) : ServerResponse × List UpstreamCall :=
  runHandler "getting records" (getTextRecordM o name key)

/-- Body of `checkAvailability`. -/
def checkAvailabilityM (o : Oracle) (name : String) : CallM ServerResponse :=
  let normalizedName := normalizeName name
  CallM.bind (invoke (UpstreamCall.getAvailable normalizedName) (o.getAvailable normalizedName))
    (fun available =>
      if available then
        CallM.pure (okEnvelope ("The name " ++ normalizedName ++ " is available for registration."))
      else
        CallM.bind (invoke (UpstreamCall.getOwner normalizedName) (o.getOwner normalizedName))
          (fun owner =>
            CallM.pure (okEnvelope ("The name " ++ normalizedName ++ " is already registered. " ++
              (match owner with
               | some ow => "Current owner: " ++ ow.owner
               | none => "")))))

/-- `checkAvailability` of src/utils/index.ts. -/
def checkAvailability (o : Oracle) (name : String) : ServerResponse × List UpstreamCall :=
  runHandler "name availability check" (checkAvailabilityM o name)

/-- The text-record lines of the `getAllRecords` output. -/
def textRecordLines (texts : List TextRec) : String :=
  texts.foldl (fun acc record => acc ++ "- " ++ record.key ++ ": " ++ record.value ++ "\n") ""

/-- The coin lines of the `getAllRecords` output. -/
def coinLines (coins : List CoinRec) : String :=
  coins.foldl
    (fun acc coin => acc ++ "- " ++ coin.name ++ " (" ++ toString coin.id ++ "): " ++ coin.value ++ "\n") ""

/-- The ownership section of the `getAllRecords` output; the registrant line
is emitted only when `owner.registrant` is truthy. -/
def ownerSection (ow : OwnerResult) : String :=
  "\n\nOwnership Information:" ++ "\n- Owner: " ++ ow.owner ++
    (match ow.registrant with
     | some r => if r = "" then "" else "\n- Registrant: " ++ r
     | none => "") ++
    "\n- Level: " ++ ow.ownershipLevel

/-- The expiration section of the `getAllRecords` output. -/
def expirySection (ex : ExpiryInfo) : String :=
  "\n\nExpiration Information:" ++ "\n- Expires: " ++ ex.dateLocale ++
    "\n- Status: " ++ ex.status ++
    (if ex.status = "gracePeriod" then
      "\n- Grace Period: " ++ toString (ex.gracePeriod / 86400) ++ " days"
    else "")

/-- Body of `getAllRecords`. The third upstream call passes the raw `name`,
not `normalizedName`, exactly as on line 244 of src/utils/index.ts. -/
def getAllRecordsM (o : Oracle) (name : String) : CallM ServerResponse :=
  let normalizedName := normalizeName name
  CallM.bind (invoke (UpstreamCall.getRecords normalizedName) (o.getRecords normalizedName))
    (fun resp =>
      let records := resp.records
      let output0 := "Information for " ++ normalizedName ++ ":\n\n" ++
        "Resolver Address: " ++ records.resolverAddress ++ "\n"
      let output1 := output0 ++
        (if records.texts.length > 0 then "\nText Records:\n" ++ textRecordLines records.texts
         else "\nNo text records found.")
      let output2 := output1 ++
        (if records.coins.length > 0 then "\nAddresses:\n" ++ coinLines records.coins
         else "\nNo cryptocurrency addresses found.")
      let output3 := output2 ++
        (match records.contentHash with
         | some ch => "\nContent Hash: " ++ ch.decoded ++ " (Protocol: " ++ ch.protocolType ++ ")"
         | none => "")
      CallM.bind (invoke (UpstreamCall.getOwner normalizedName) (o.getOwner normalizedName))
        (fun owner =>
          let output4 := output3 ++ (match owner with | some ow => ownerSection ow | none => "")
          CallM.bind (invoke (UpstreamCall.getExpiry name) (o.getExpiry name))
            (fun expiry =>
              let output5 := output4 ++ (match expiry with | some ex => expirySection ex | none => "")
              CallM.pure (okEnvelope output5))))

/-- `getAllRecords` of src/utils/index.ts. -/
def getAllRecords (o : Oracle) (name : String) : ServerResponse × List UpstreamCall :=
  runHandler "ens information" (getAllRecordsM o name)

/-- The per-subdomain lines of the `getSubdomains` output. -/
def subdomainLines (subdomains : List Subname) : String :=
  subdomains.foldl
    (fun acc subdomain =>
      acc ++ "- " ++ subdomain.name ++
        (match subdomain.owner with
         | some ow => if ow = "" then "" else " (Owner: " ++ ow ++ ")"
         | none => "") ++ "\n") ""

/-- Body of `getSubdomains`; the user-facing messages interpolate the raw
`name`, as in the source. -/
def getSubdomainsM (o : Oracle) (name : String) : CallM ServerResponse :=
  let normalizedName := normalizeName name
  CallM.bind (invoke (UpstreamCall.getSubnames normalizedName) (o.getSubnames normalizedName))
    (fun subdomains =>
      match subdomains with
      | none => CallM.pure (okEnvelope ("No subdomains found for " ++ name))
      | some l =>
        if l.length = 0 then
          CallM.pure (okEnvelope ("No subdomains found for " ++ name))
        else
          CallM.pure (okEnvelope ("Subdomains for " ++ name ++ ":\n\n" ++ subdomainLines l)))

/-- `getSubdomains` of src/utils/index.ts. -/
def getSubdomains (o : Oracle) (name : String) : ServerResponse × List UpstreamCall :=
  runHandler "getting subdomains" (getSubdomainsM o name)

/-- The domain-event lines of the `getNameHistory` output. -/
def domainEventLines (events : List DomainEvent) : String :=
  events.foldl
    (fun acc event =>
      let acc1 := acc ++ "- " ++ event.type ++ " at block " ++ toString event.blockNumber ++ "\n"
      if event.type = "Transfer" || event.type = "NewOwner" then
        acc1 ++ "  New owner: " ++ event.owner ++ "\n"
      else if event.type = "NewResolver" then
        acc1 ++ "  New resolver: " ++ event.resolver ++ "\n"
      else acc1) ""

/-- The registration-event lines of the `getNameHistory` output. -/
def registrationEventLines (events : List RegistrationEvent) : String :=
  events.foldl
    (fun acc event =>
      let acc1 := acc ++ "- " ++ event.type ++ " at block " ++ toString event.blockNumber ++ "\n"
      if event.type = "NameRegistered" then
        acc1 ++ "  Registrant: " ++ event.registrant ++ "\n" ++
          "  Expiry Date: " ++ event.expiryDateLocale ++ "\n"
      else if event.type = "NameRenewed" then
        acc1 ++ "  New Expiry Date: " ++ event.expiryDateLocale ++ "\n"
      else acc1) ""

/-- The resolver-event lines of the `getNameHistory` output. -/
def resolverEventLines (events : List ResolverEvent) : String :=
  events.foldl
    (fun acc event =>
      let acc1 := acc ++ "- " ++ event.type ++ " at block " ++ toString event.blockNumber ++ "\n"
      if event.type = "AddrChanged" then
        acc1 ++ "  New address: " ++ event.addr ++ "\n"
      else if event.type = "TextChanged" then
        acc1 ++ "  Key: " ++ event.key ++ "\n" ++
          (match event.value with
           | some v => if v = "" then "" else "  Value: " ++ v ++ "\n"
           | none => "")
      else acc1) ""

/-- Body of `getNameHistory`; the user-facing messages interpolate the raw
`name`, as in the source. -/
def getNameHistoryM (o : Oracle) (name : String) : CallM ServerResponse :=
  let normalizedName := normalizeName name
  CallM.bind (invoke (UpstreamCall.getNameHistory normalizedName) (o.getNameHistory normalizedName))
    (fun history =>
      match history with
      | none => CallM.pure (okEnvelope ("No history found for " ++ name))
      | some h =>
        let output0 := "History for " ++ name ++ ":\n\n"
        let output1 := output0 ++
          (if h.domainEvents.length > 0 then "Domain Events:\n" ++ domainEventLines h.domainEvents
           else "")
        let output2 := output1 ++
          (if h.registrationEvents.length > 0 then
            "\nRegistration Events:\n" ++ registrationEventLines h.registrationEvents
          else "")
        let output3 := output2 ++
          (if h.resolverEvents.length > 0 then
            "\nResolver Events:\n" ++ resolverEventLines h.resolverEvents
          else "")
        CallM.pure (okEnvelope output3))

/-- `getNameHistory` of src/utils/index.ts. -/
def getNameHistory (o : Oracle) (name : String) : ServerResponse × List UpstreamCall :=
  runHandler "get name history" (getNameHistoryM o name)

/-- Body of `getRegistrationPrice`; `ethers.formatEther` is an external
library function and is passed in as `fmtEther`. -/
def getRegistrationPriceM (fmtEther : Nat → String) (o : Oracle) (name : String) (duration : Nat) :
    CallM ServerResponse :=
  let normalizedName := normalizeName name
  let durationInSeconds := duration * 365 * 24 * 60 * 60
  CallM.bind
    (invoke (UpstreamCall.getPrice normalizedName durationInSeconds)
      (o.getPrice normalizedName durationInSeconds))
    (fun price =>
      CallM.pure (okEnvelope ("Registration price for " ++ normalizedName ++ " for " ++
        toString duration ++ " year(s):\n" ++
        "- Base Price: " ++ fmtEther price.base ++ " ETH\n" ++
        "- Premium: " ++ fmtEther price.premium ++ " ETH\n" ++
        "- Total: " ++ fmtEther (price.base + price.premium) ++ " ETH")))

/-- `getRegistrationPrice` of src/utils/index.ts (default duration 1). -/
def getRegistrationPrice (fmtEther : Nat → String) (o : Oracle) (name : String)
    (duration : Nat := 1) : ServerResponse × List UpstreamCall :=
  runHandler "get registration price" (getRegistrationPriceM fmtEther o name duration)

/-- A thrown test error. -/
def boomError : JsError := JsError.error "boom" "Error: boom"

/-- An oracle whose calls all succeed. -/
def okOracle : Oracle :=
  { getAddressRecord := fun _ => Except.ok (some { value := "0xabc" })
  , getName := fun _ => Except.ok (some { name := "vitalik.eth", matched := true })
  , getTextRecord := fun _ _ => Except.ok (some "hello")
  , getAvailable := fun _ => Except.ok false
  , getOwner := fun _ => Except.ok none
  , getRecords := fun _ =>
      Except.ok { records := { resolverAddress := "0xres", texts := [], coins := [], contentHash := none } }
  , getExpiry := fun _ => Except.ok none
  , getSubnames := fun _ => Except.ok none
  , getNameHistory := fun _ => Except.ok none
  , getPrice := fun _ _ => Except.ok { base := 0, premium := 0 } }

/-- An oracle whose calls all throw `boomError`. -/
def errOracle : Oracle :=
  { getAddressRecord := fun _ => Except.error boomError
  , getName := fun _ => Except.error boomError
  , getTextRecord := fun _ _ => Except.error boomError
  , getAvailable := fun _ => Except.error boomError
  , getOwner := fun _ => Except.error boomError
  , getRecords := fun _ => Except.error boomError
  , getExpiry := fun _ => Except.error boomError
  , getSubnames := fun _ => Except.error boomError
  , getNameHistory := fun _ => Except.error boomError
  , getPrice := fun _ _ => Except.error boomError }

/-- An oracle that resolves no address record. -/
def oracleResolveNone : Oracle :=
  { okOracle with getAddressRecord := fun _ => Except.ok none }

/-- An address validity predicate rejecting every input. -/
def alwaysInvalid : String → Bool := fun _ => false

/-- Splitting at commas always yields at least one piece. -/
theorem splitCommaAux_ne_nil (l acc : List Char) : splitCommaAux l acc ≠ [] := by
  induction l generalizing acc with
  | nil => simp [splitCommaAux]
  | cons c rest ih =>
    simp only [splitCommaAux]
    split
    · simp
    · exact ih _

/-- The empty string has no comma. -/
theorem jsIncludes_empty_comma : jsIncludes "" "," = false := by decide

/-- The comma branch of `getProviderUrls`. -/
theorem getProviderUrls_comma (s : String) (h : jsIncludes s "," = true) :
    getProviderUrls (some s) = (jsSplitComma s).map jsTrim := by
  have hs : s ≠ "" := by
    intro he
    subst he
    exact absurd h (by decide)
  simp [getProviderUrls, jsTruthy, strVal, h, hs]

/-- The single-override branch of `getProviderUrls`. -/
theorem getProviderUrls_single (s : String) (hs : s ≠ "") (hc : jsIncludes s "," = false) :
    getProviderUrls (some s) = s :: DEFAULT_PROVIDERS.filter (fun url => url != s) := by
  simp [getProviderUrls, jsTruthy, strVal, hc, hs]

/-- Claim C2 (amended): the classifier on an Error value is a first-match
cascade on the message: any of the four network needles gives the network
template; else an ENS needle gives the ENS template; else an invalid or
parameter needle gives the invalid-input template; else the unknown template
interpolates the message, falling back to the stringified error when the
message is empty. The four listed concrete messages classify as stated. -/
theorem C2_classifier_cascade :
    (∀ m sf op : String,
      (jsIncludes m "fetch failed" || jsIncludes m "timeout" || jsIncludes m "network" || jsIncludes m "HTTP request failed") = true →
      handleEnsError (JsError.error m sf) op =
        "Network error while accessing Ethereum providers. Please check your internet connection or try again later. Technical details: " ++ m) ∧
    (∀ m sf op : String,
      (jsIncludes m "fetch failed" || jsIncludes m "timeout" || jsIncludes m "network" || jsIncludes m "HTTP request failed") = false →
      jsIncludes m "ENS" = true →
      handleEnsError (JsError.error m sf) op = "ENS error: " ++ m) ∧
    (∀ m sf op : String,
      (jsIncludes m "fetch failed" || jsIncludes m "timeout" || jsIncludes m "network" || jsIncludes m "HTTP request failed") = false →
      jsIncludes m "ENS" = false →
      (jsIncludes m "invalid" || jsIncludes m "parameter") = true →
      handleEnsError (JsError.error m sf) op = "Invalid input: " ++ m) ∧
    (∀ m sf op : String,
      (jsIncludes m "fetch failed" || jsIncludes m "timeout" || jsIncludes m "network" || jsIncludes m "HTTP request failed") = false →
      jsIncludes m "ENS" = false →
      (jsIncludes m "invalid" || jsIncludes m "parameter") = false →
      handleEnsError (JsError.error m sf) op =
        "Error during " ++ op ++ ": " ++ (if m = "" then sf else m)) ∧
    handleEnsError (JsError.error "fetch failed: timeout" "e") "name resolution" =
      "Network error while accessing Ethereum providers. Please check your internet connection or try again later. Technical details: fetch failed: timeout" ∧
    handleEnsError (JsError.error "invalid parameter: name" "e") "name resolution" =
      "Invalid input: invalid parameter: name" ∧
    handleEnsError (JsError.error "ENS: name not found" "e") "name resolution" =
      "ENS error: ENS: name not found" ∧
    handleEnsError (JsError.error "boom" "e") "name resolution" =
      "Error during name resolution: boom" := by
  refine ⟨?_, ?_, ?_, ?_, by decide, by decide, by decide, by decide⟩
  · intro m sf op h
    simp [handleEnsError, h]
  · intro m sf op h1 h2
    simp [handleEnsError, h1, h2]
  · intro m sf op h1 h2 h3
    simp [handleEnsError, h1, h2, h3]
  · intro m sf op h1 h2 h3
    simp [handleEnsError, jsStringOf, h1, h2, h3]

/-- Witness for claim C2: the amended cascade theorem applied to the message
"timeout". -/
theorem C2_witness :
    handleEnsError (JsError.error "timeout" "e") "reverse lookup" =
      "Network error while accessing Ethereum providers. Please check your internet connection or try again later. Technical details: timeout" :=
  C2_classifier_cascade.1 "timeout" "e" "reverse lookup" (by decide)

/-- Counterexample for claim C2 as stated: on an Error whose message is
empty, every branch of the cascade misses and the code falls back to the
stringified error, not to the interpolated (empty) message the claim
predicts. -/
theorem C2_counterexample :
    handleEnsError (JsError.error "" "Error") "name resolution" =
      "Error during name resolution: Error" ∧
    handleEnsError (JsError.error "" "Error") "name resolution" ≠
      "Error during name resolution: " := by
  exact ⟨by decide, by decide⟩

/-- Claim C3: a configured override containing a comma is returned as
exactly the comma-split list with each element trimmed, in the given order,
with no defaults appended. -/
theorem C3_comma_override (s : String) (h : jsIncludes s "," = true) :
    getProviderUrls (some s) = (jsSplitComma s).map jsTrim :=
  getProviderUrls_comma s h

/-- Witness for claim C3 at a concrete two-element override. -/
theorem C3_witness :
    getProviderUrls (some " https://a.example , https://b.example ") =
      ["https://a.example", "https://b.example"] := by
  rw [C3_comma_override " https://a.example , https://b.example " (by decide)]
  decide

/-- Claim C4: a non-empty comma-free override is returned first, followed by
the built-in defaults with any element equal to the override removed, in
default order; an unset override yields the 4 built-in defaults unchanged. -/
theorem C4_single_or_unset :
    (∀ s : String, s ≠ "" → jsIncludes s "," = false →
      getProviderUrls (some s) = s :: DEFAULT_PROVIDERS.filter (fun url => url != s)) ∧
    getProviderUrls none = DEFAULT_PROVIDERS ∧ DEFAULT_PROVIDERS.length = 4 := by
  exact ⟨getProviderUrls_single, by decide, by decide⟩

/-- Witness for claim C4: an override equal to one of the defaults moves to
the front and its duplicate is removed from the defaults. -/
theorem C4_witness :
    getProviderUrls (some "https://eth.llamarpc.com") =
      ["https://eth.llamarpc.com", "https://eth.drpc.org",
       "https://ethereum.publicnode.com", "https://rpc.ankr.com/eth"] := by
  rw [C4_single_or_unset.1 "https://eth.llamarpc.com" (by decide) (by decide)]
  decide

/-- Counterexample for claim C5 as stated: a comma-separated override with a
repeated entry is returned with the duplicate intact, so the result is not
deduplicated. -/
theorem C5_counterexample :
    ¬ (getProviderUrls (some "a,a") ≠ [] ∧ (getProviderUrls (some "a,a")).Nodup) := by
  decide

/-- Claim C5 (amended): for every configuration input the provider URL list
is non-empty; when the configuration is unset or a comma-free override, the
list additionally contains no duplicates (a comma-separated override is
returned as given and may repeat entries). -/
theorem C5_nonempty_and_nodup (cfg : Option String) :
    getProviderUrls cfg ≠ [] ∧
      ((∀ s, cfg = some s → jsIncludes s "," = false) → (getProviderUrls cfg).Nodup) := by
  rcases cfg with _ | s
  · exact ⟨by decide, fun _ => by decide⟩
  · by_cases he : s = ""
    · subst he
      exact ⟨by decide, fun _ => by decide⟩
    · by_cases hc : jsIncludes s "," = true
      · constructor
        · rw [getProviderUrls_comma s hc]
          intro hnil
          exact splitCommaAux_ne_nil s.data [] (List.map_eq_nil_iff.mp hnil)
        · intro hall
          exact absurd (hall s rfl) (by simp [hc])
      · have hc2 : jsIncludes s "," = false := by
          cases hf : jsIncludes s "," with
          | false => rfl
          | true => exact absurd hf hc
        rw [getProviderUrls_single s he hc2]
        constructor
        · simp
        · intro _
          refine List.nodup_cons.mpr ⟨?_, ?_⟩
          · intro hmem
            have hkeep := (List.mem_filter.mp hmem).2
            simp at hkeep
          · exact List.Nodup.filter _ (by decide)

/-- Witness for claim C5 at a concrete comma-free override. -/
theorem C5_witness :
    getProviderUrls (some "https://x.example") ≠ [] ∧
      (getProviderUrls (some "https://x.example")).Nodup := by
  refine ⟨(C5_nonempty_and_nodup (some "https://x.example")).1,
    (C5_nonempty_and_nodup (some "https://x.example")).2 ?_⟩
  intro s hs
  cases hs
  decide

/-- Claim C7: rotation fails with the exhaustion error exactly when the
current index is at least the last position, leaving the held client
unchanged; otherwise it builds a brand-new client bound to the next provider
URL, stores it as the held client, and returns it. -/
theorem C7_rotation (urls : List String) (held : JNClient) (i : Nat) :
    (i ≥ urls.length - 1 →
      retryStep urls held i = (held, Except.error "All providers failed")) ∧
    (i < urls.length - 1 →
      retryStep urls held i =
        (JustaNameInit 1 (urls.getD (i + 1) ""), Except.ok (JustaNameInit 1 (urls.getD (i + 1) ""))) ∧
      urls[i + 1]? = some (urls.getD (i + 1) "")) := by
  constructor
  · intro h
    simp [retryStep, h]
  · intro h
    have hlt : i + 1 < urls.length := by omega
    constructor
    · simp [retryStep, Nat.not_le.mpr h]
    · rw [List.getElem?_eq_getElem hlt]
      simp [List.getD, List.getElem?_eq_getElem hlt]

/-- Witness for claim C7 on a two-provider list: rotating from the last
index fails without touching the held client, rotating from the first index
installs and returns the client bound to the second URL. -/
theorem C7_witness :
    retryStep ["https://a.example", "https://b.example"] (JustaNameInit 1 "https://a.example") 1 =
      (JustaNameInit 1 "https://a.example", Except.error "All providers failed") ∧
    retryStep ["https://a.example", "https://b.example"] (JustaNameInit 1 "https://a.example") 0 =
      (JustaNameInit 1 "https://b.example", Except.ok (JustaNameInit 1 "https://b.example")) := by
  constructor
  · exact (C7_rotation ["https://a.example", "https://b.example"] (JustaNameInit 1 "https://a.example") 1).1 (by decide)
  · exact ((C7_rotation ["https://a.example", "https://b.example"] (JustaNameInit 1 "https://a.example") 0).2 (by decide)).1.trans rfl

/-- Claim C10: a thrown value that is not an Error instance always yields
the unknown-error template interpolating the operation label and the
stringified value, even when that string form contains the classifier
needles. -/
theorem C10_non_error_values :
    (∀ sf op : String,
      handleEnsError (JsError.other sf) op = "Error during " ++ op ++ ": " ++ sf) ∧
    handleEnsError (JsError.other "timeout") "reverse lookup" =
      "Error during reverse lookup: timeout" ∧
    handleEnsError (JsError.other "invalid ENS network parameter") "name resolution" =
      "Error during name resolution: invalid ENS network parameter" :=
  ⟨fun _ _ => rfl, rfl, rfl⟩

/-- Claim C1: every operation handler returns a single response envelope
with exactly one text entry and never propagates a thrown error; whenever an
upstream call throws, the returned envelope is the error envelope carrying
the classifier message for that error and operation label. -/
theorem C1_uniform_envelopes :
    (∀ (o : Oracle) (name : String) (e : JsError),
      o.getAddressRecord (normalizeName name) = Except.error e →
      (resolveName o name).1 = errEnvelope (handleEnsError e "name resolution")) ∧
    (∀ (isAddr : String → Bool) (o : Oracle) (address : String) (e : JsError),
      isAddr address = true → o.getName address = Except.error e →
      (reverseLookup isAddr o address).1 = errEnvelope (handleEnsError e "reverse lookup")) ∧
    (∀ (o : Oracle) (name key : String) (e : JsError),
      o.getTextRecord (normalizeName name) key = Except.error e →
      (getTextRecord o name key).1 = errEnvelope (handleEnsError e "getting records")) ∧
    (∀ (o : Oracle) (name : String) (e : JsError),
      o.getAvailable (normalizeName name) = Except.error e →
      (checkAvailability o name).1 = errEnvelope (handleEnsError e "name availability check")) ∧
    (∀ (o : Oracle) (name : String) (e : JsError),
      o.getAvailable (normalizeName name) = Except.ok false →
      o.getOwner (normalizeName name) = Except.error e →
      (checkAvailability o name).1 = errEnvelope (handleEnsError e "name availability check")) ∧
    (∀ (o : Oracle) (name : String) (e : JsError),
      o.getRecords (normalizeName name) = Except.error e →
      (getAllRecords o name).1 = errEnvelope (handleEnsError e "ens information")) ∧
    (∀ (o : Oracle) (name : String) (resp : RecordsResponse) (e : JsError),
      o.getRecords (normalizeName name) = Except.ok resp →
      o.getOwner (normalizeName name) = Except.error e →
      (getAllRecords o name).1 = errEnvelope (handleEnsError e "ens information")) ∧
    (∀ (o : Oracle) (name : String) (resp : RecordsResponse) (ow : Option OwnerResult) (e : JsError),
      o.getRecords (normalizeName name) = Except.ok resp →
      o.getOwner (normalizeName name) = Except.ok ow →
      o.getExpiry name = Except.error e →
      (getAllRecords o name).1 = errEnvelope (handleEnsError e "ens information")) ∧
    (∀ (o : Oracle) (name : String) (e : JsError),
      o.getSubnames (normalizeName name) = Except.error e →
      (getSubdomains o name).1 = errEnvelope (handleEnsError e "getting subdomains")) ∧
    (∀ (o : Oracle) (name : String) (e : JsError),
      o.getNameHistory (normalizeName name) = Except.error e →
      (getNameHistory o name).1 = errEnvelope (handleEnsError e "get name history")) ∧
    (∀ (fmt : Nat → String) (o : Oracle) (name : String) (d : Nat) (e : JsError),
      o.getPrice (normalizeName name) (d * 365 * 24 * 60 * 60) = Except.error e →
      (getRegistrationPrice fmt o name d).1 = errEnvelope (handleEnsError e "get registration price")) ∧
    (∀ (o : Oracle) (name : String), ((resolveName o name).1).content.length = 1) ∧
    (∀ (isAddr : String → Bool) (o : Oracle) (address : String),
      ((reverseLookup isAddr o address).1).content.length = 1) ∧
    (∀ (o : Oracle) (name key : String), ((getTextRecord o name key).1).content.length = 1) ∧
    (∀ (o : Oracle) (name : String), ((checkAvailability o name).1).content.length = 1) ∧
    (∀ (o : Oracle) (name : String), ((getAllRecords o name).1).content.length = 1) ∧
    (∀ (o : Oracle) (name : String), ((getSubdomains o name).1).content.length = 1) ∧
    (∀ (o : Oracle) (name : String), ((getNameHistory o name).1).content.length = 1) ∧
    (∀ (fmt : Nat → String) (o : Oracle) (name : String) (d : Nat),
      ((getRegistrationPrice fmt o name d).1).content.length = 1) := by
  refine ⟨?_, ?_, ?_, ?_, ?_, ?_, ?_, ?_, ?_, ?_, ?_, ?_, ?_, ?_, ?_, ?_, ?_, ?_, ?_⟩
  · intro o name e h
    simp [resolveName, resolveNameM, runHandler, CallM.bind, invoke, h]
  · intro isAddr o address e ha h
    simp [reverseLookup, reverseLookupM, runHandler, CallM.bind, invoke, ha, h]
  · intro o name key e h
    simp [getTextRecord, getTextRecordM, runHandler, CallM.bind, invoke, h]
  · intro o name e h
    simp [checkAvailability, checkAvailabilityM, runHandler, CallM.bind, invoke, h]
  · intro o name e h1 h2
    simp [checkAvailability, checkAvailabilityM, runHandler, CallM.bind, invoke, h1, h2]
  · intro o name e h
    simp [getAllRecords, getAllRecordsM, runHandler, CallM.bind, invoke, h]
  · intro o name resp e h1 h2
    simp [getAllRecords, getAllRecordsM, runHandler, CallM.bind, invoke, h1, h2]
  · intro o name resp ow e h1 h2 h3
    simp [getAllRecords, getAllRecordsM, runHandler, CallM.bind, CallM.pure, invoke, h1, h2, h3]
  · intro o name e h
    simp [getSubdomains, getSubdomainsM, runHandler, CallM.bind, invoke, h]
  · intro o name e h
    simp [getNameHistory, getNameHistoryM, runHandler, CallM.bind, invoke, h]
  · intro fmt o name d e h
    simp [getRegistrationPrice, getRegistrationPriceM, runHandler, CallM.bind, invoke, h]
  · intro o name
    rcases h : o.getAddressRecord (normalizeName name) with e | _ | a <;>
      simp [resolveName, resolveNameM, runHandler, CallM.bind, CallM.pure, invoke, h,
        errEnvelope, okEnvelope]
  · intro isAddr o address
    cases ha : isAddr address with
    | false => simp [reverseLookup, reverseLookupM, runHandler, CallM.pure, ha, errEnvelope]
    | true =>
      rcases h : o.getName address with e | _ | r <;>
        simp [reverseLookup, reverseLookupM, runHandler, CallM.bind, CallM.pure, invoke, ha, h,
          errEnvelope, okEnvelope]
  · intro o name key
    rcases h : o.getTextRecord (normalizeName name) key with e | _ | v
    · simp [getTextRecord, getTextRecordM, runHandler, CallM.bind, CallM.pure, invoke, h,
        errEnvelope]
    · simp [getTextRecord, getTextRecordM, runHandler, CallM.bind, CallM.pure, invoke, h,
        okEnvelope]
    · by_cases hv : v = "" <;>
        simp [getTextRecord, getTextRecordM, runHandler, CallM.bind, CallM.pure, invoke, h, hv,
          okEnvelope]
  · intro o name
    rcases h : o.getAvailable (normalizeName name) with e | b
    · simp [checkAvailability, checkAvailabilityM, runHandler, CallM.bind, CallM.pure, invoke, h,
        errEnvelope]
    · cases b with
      | false =>
        rcases h2 : o.getOwner (normalizeName name) with e2 | ow <;>
          simp [checkAvailability, checkAvailabilityM, runHandler, CallM.bind, CallM.pure, invoke,
            h, h2, errEnvelope, okEnvelope]
      | true =>
        simp [checkAvailability, checkAvailabilityM, runHandler, CallM.bind, CallM.pure, invoke,
          h, okEnvelope]
  · intro o name
    rcases h1 : o.getRecords (normalizeName name) with e | resp
    · simp [getAllRecords, getAllRecordsM, runHandler, CallM.bind, CallM.pure, invoke, h1,
        errEnvelope]
    · rcases h2 : o.getOwner (normalizeName name) with e2 | ow
      · simp [getAllRecords, getAllRecordsM, runHandler, CallM.bind, CallM.pure, invoke, h1, h2,
          errEnvelope]
      · rcases h3 : o.getExpiry name with e3 | ex <;>
          simp [getAllRecords, getAllRecordsM, runHandler, CallM.bind, CallM.pure, invoke, h1, h2,
            h3, errEnvelope, okEnvelope]
  · intro o name
    rcases h : o.getSubnames (normalizeName name) with e | _ | l
    · simp [getSubdomains, getSubdomainsM, runHandler, CallM.bind, CallM.pure, invoke, h,
        errEnvelope]
    · simp [getSubdomains, getSubdomainsM, runHandler, CallM.bind, CallM.pure, invoke, h,
        okEnvelope]
    · by_cases hl : l = [] <;>
        simp [getSubdomains, getSubdomainsM, runHandler, CallM.bind, CallM.pure, invoke, h, hl,
          okEnvelope]
  · intro o name
    rcases h : o.getNameHistory (normalizeName name) with e | _ | hist <;>
      simp [getNameHistory, getNameHistoryM, runHandler, CallM.bind, CallM.pure, invoke, h,
        errEnvelope, okEnvelope]
  · intro fmt o name d
    rcases h : o.getPrice (normalizeName name) (d * 365 * 24 * 60 * 60) with e | p <;>
      simp [getRegistrationPrice, getRegistrationPriceM, runHandler, CallM.bind, CallM.pure,
        invoke, h, errEnvelope, okEnvelope]

/-- Witness for claim C1: three handlers applied to an oracle whose calls
all throw return the classified error envelope. -/
theorem C1_witness :
    (resolveName errOracle "x").1 = errEnvelope (handleEnsError boomError "name resolution") ∧
    (getAllRecords errOracle "x").1 = errEnvelope (handleEnsError boomError "ens information") ∧
    (getRegistrationPrice (fun _ => "0.0") errOracle "x" 1).1 =
      errEnvelope (handleEnsError boomError "get registration price") :=
  ⟨C1_uniform_envelopes.1 errOracle "x" boomError rfl,
   C1_uniform_envelopes.2.2.2.2.2.1 errOracle "x" boomError rfl,
   C1_uniform_envelopes.2.2.2.2.2.2.2.2.2.2.1 (fun _ => "0.0") errOracle "x" 1 boomError rfl⟩

/-- Claim C6: in getAllRecords the expiry lookup receives the raw input
name, not the normalized one: for input "vitalik" the recorded upstream
calls are getRecords and getOwner with "vitalik.eth" but getExpiry with
"vitalik", which differs from the normalized name. -/
theorem C6_expiry_call_unnormalized :
    (getAllRecords okOracle "vitalik").2 =
      [UpstreamCall.getRecords "vitalik.eth", UpstreamCall.getOwner "vitalik.eth",
       UpstreamCall.getExpiry "vitalik"] ∧
    normalizeName "vitalik" = "vitalik.eth" ∧ ("vitalik" : String) ≠ "vitalik.eth" := by
  exact ⟨by decide, by decide, by decide⟩

/-- Claim C8: resolveName on the input "vitalik" queries the upstream
address record exactly once, with the normalized name "vitalik.eth",
whatever the oracle answers; a missing record yields the could-not-resolve
success envelope and a record with value "0xabc" yields the address success
envelope. -/
theorem C8_resolve_name :
    (∀ o : Oracle, (resolveName o "vitalik").2 = [UpstreamCall.getAddressRecord "vitalik.eth"]) ∧
    (resolveName oracleResolveNone "vitalik").1 =
      okEnvelope "Could not resolve vitalik.eth to an address." ∧
    (resolveName okOracle "vitalik").1 =
      okEnvelope "The address for vitalik.eth is 0xabc" := by
  refine ⟨?_, by decide, by decide⟩
  intro o
  have hn : normalizeName "vitalik" = "vitalik.eth" := by decide
  simp only [resolveName, resolveNameM, runHandler, CallM.bind, CallM.pure, invoke, hn]
  rcases o.getAddressRecord "vitalik.eth" with e | _ | a <;> rfl

/-- Claim C9: reverseLookup on an address the validity check rejects returns
the invalid-address error envelope and performs no upstream call; the
upstream getName call happens exactly for accepted addresses. -/
theorem C9_reverse_lookup_validation :
    (∀ (isAddr : String → Bool) (o : Oracle) (address : String),
      isAddr address = false →
      reverseLookup isAddr o address =
        (errEnvelope ("Invalid Ethereum address: " ++ address), [])) ∧
    (∀ (isAddr : String → Bool) (o : Oracle) (address : String),
      isAddr address = true →
      (reverseLookup isAddr o address).2 = [UpstreamCall.getName address]) := by
  constructor
  · intro isAddr o address h
    simp [reverseLookup, reverseLookupM, runHandler, CallM.pure, h]
  · intro isAddr o address h
    simp only [reverseLookup, reverseLookupM, runHandler, CallM.bind, CallM.pure, invoke, h]
    rcases o.getName address with e | _ | r <;> rfl

/-- Witness for claim C9: with a validity check rejecting every input, the
lookup of "not-an-address" returns the invalid-address envelope and an
empty call list. -/
theorem C9_witness :
    reverseLookup alwaysInvalid okOracle "not-an-address" =
      (errEnvelope ("Invalid Ethereum address: " ++ "not-an-address"), []) :=
  C9_reverse_lookup_validation.1 alwaysInvalid okOracle "not-an-address" rfl
